import Mathlib

/-!
Verification of the recommendation core of the TV-Show-Recommender
repository (src/ShowSuggesterAI.py): the fuzzy title reconciler
`automatic_translator` (lines 118-141), the embedding-based ranker
`ai_recommendation` (lines 144-201) and the vector helper
`cosine_similarity` (lines 42-59), shallowly embedded over lists of real
numbers.  pandas DataFrames are modelled row-wise, with the pandas index
label kept on each row; Python exceptions are modelled with `Except`.
-/

namespace ShowSuggester

/-! ### Vector arithmetic (the numpy fragment the source uses) -/

/-- np.dot on 1-D arrays: the sum of componentwise products.  The source
only applies it to vectors of one common dimension D (spec section 3). -/
def dot : List ℝ → List ℝ → ℝ
  | a :: as, b :: bs => a * b + dot as bs
  | _, _ => 0

/-- np.linalg.norm: the Euclidean norm, the square root of the sum of
squares of the entries. -/
noncomputable def npNorm (a : List ℝ) : ℝ := Real.sqrt (dot a a)

/-- cosine_similarity (ShowSuggesterAI.py lines 42-59): np.dot(a, b)
divided by the product of the two norms, returning 0.0 when that
denominator is zero (the guard at lines 56-58). -/
noncomputable def cosine_similarity (a b : List ℝ) : ℝ :=
  if npNorm a * npNorm b = 0 then 0 else dot a b / (npNorm a * npNorm b)

/-- Componentwise sum of a list of vectors, the sum part of
np.mean(vs, axis=0). -/
def vecSum : List (List ℝ) → List ℝ
  | [] => []
  | [v] => v
  | v :: vs => List.zipWith (fun x y => x + y) v (vecSum vs)

/-- np.mean(vs, axis=0) (line 175): the componentwise arithmetic mean.
numpy requires all rows to share the dimension D; on such input this is
exactly the componentwise mean. -/
noncomputable def npMean (vs : List (List ℝ)) : List ℝ :=
  (vecSum vs).map (fun x => x / (vs.length : ℝ))

/-! ### The pandas data model used by the source -/

/-- One row of the catalog DataFrame.  `idx` is the pandas index label of
the row (read_csv assigns the RangeIndex 0,1,2,...), `title` the Title
cell, `cells` the remaining cells of the CSV (not inspected by the core),
and `embedding` / `similarity` the cells of the two columns that
ai_recommendation assigns (`none` while the column is absent, and for the
NaN that `.get` yields on a missing key). -/
structure Row where
  idx : Nat
  title : String
  cells : List String
  embedding : Option (List ℝ) := none
  similarity : Option ℝ := none

/-- A pandas DataFrame as the source uses it: whether the Title column
exists, and the list of rows in frame order. -/
structure DataFrame where
  hasTitle : Bool
  rows : List Row

/-- pd.DataFrame(): no columns, no rows. -/
def emptyDF : DataFrame := { hasTitle := false, rows := [] }

/-! ### automatic_translator (lines 118-141) -/

/-- The Python values the shows_list argument takes in the repository and
its tests: None, a string, or a list of strings. -/
inductive PyShows where
  | pynone
  | pystr (s : String)
  | pylist (l : List String)

/-- Python truthiness test `not shows_list` (line 132). -/
def PyShows.falsy : PyShows → Bool
  | .pynone => true
  | .pystr s => s.isEmpty
  | .pylist l => l.isEmpty

/-- Iterating over the shows_list argument: a Python string iterates as
its characters (each a 1-character string), a list as its elements. -/
def PyShows.seq : PyShows → List String
  | .pynone => []
  | .pystr s => s.toList.map (fun c => String.mk [c])
  | .pylist l => l

/-- The Python values the df argument takes in the repository and its
tests: None, a string, a list, or a DataFrame.  Only the last one passes
the isinstance check of line 132. -/
inductive PyCatalog where
  | pynone
  | pystr (s : String)
  | pylist (l : List String)
  | pydf (d : DataFrame)

/-- The maximum of a list of natural numbers (0 for the empty list). -/
def listMax : List Nat → Nat
  | [] => 0
  | a :: l => max a (listMax l)

/-- pandas Series.idxmax on a RangeIndex series: the position of the first
occurrence of the maximum value. -/
def idxmaxL : List Nat → Nat
  | [] => 0
  | a :: l => if listMax l ≤ a then 0 else idxmaxL l + 1

/-- A placeholder row, never produced by an in-bounds getD. -/
def dummyRow : Row := { idx := 0, title := "", cells := [] }

/-- One iteration of the loop at lines 136-139: score every catalog title
against one input with the fuzzy ratio, then take the row
df.loc[ratios.idxmax()].  Series.idxmax raises a ValueError on an empty
series; on a RangeIndex, .loc of the idxmax label is the row at the first
maximum position. -/
def translateOne (fuzzRatio : String → String → Nat) (rows : List Row)
    (s : String) : Except String String :=
  if rows.isEmpty then
    .error "ValueError: attempt to get argmax of an empty sequence"
  else
    .ok ((rows.getD (idxmaxL (rows.map (fun r => fuzzRatio s r.title))) dummyRow).title)

/-- automatic_translator (lines 118-141).  The external collaborator
thefuzz.fuzz.ratio (an approximate-string-similarity score on the 0-100
scale) is injected as the parameter `fuzzRatio`; the function is
elementwise in it, so every theorem below holds for the real ratio.
Line 132 returns [] when shows_list is falsy, or df is None or not a
DataFrame; otherwise df with no Title column raises a KeyError at
line 137, and an empty Title series raises in idxmax at line 138. -/
def automatic_translator (fuzzRatio : String → String → Nat)
    (shows_list : PyShows) (df : PyCatalog) : Except String (List String) :=
  if shows_list.falsy then .ok []
  else
    match df with
    | .pydf d =>
        if d.hasTitle then shows_list.seq.mapM (translateOne fuzzRatio d.rows)
        else .error "KeyError: Title"
    | _ => .ok []

/-! ### ai_recommendation (lines 144-201) -/

/-- Modelled from the spec: the embedding table returned by
load_embeddings.  ShowSuggesterAI.py line 24 imports load_embeddings from
embedding_file, but embedding_file.py in this repository does not define
that function; spec section 6 describes its output as a precomputed
mapping from title (exact string) to an embedding vector, with missing
entries tolerated, so the table is modelled as a function from titles to
optional vectors and injected as a parameter. -/
def EmbedTable := String → Option (List ℝ)

/-- Line 168: df[Embedding] = df[Title].apply(embed_dict_info.get);
.get yields None (NaN) for a missing key. -/
def addEmbeddingCol (df : DataFrame) (embed : EmbedTable) : DataFrame :=
  { df with rows := df.rows.map (fun r => { r with embedding := embed r.title }) }

/-- Line 169: df = df[df[Embedding].notna()]. -/
def filterNotna (df : DataFrame) : DataFrame :=
  { df with rows := df.rows.filter (fun r => r.embedding.isSome) }

/-- Line 171: valid_embeds, the Python list comprehension
[embed_dict[s] for s in shows_list if s in embed_dict]. -/
def valid_embeds (shows_list : List String) (embed : EmbedTable) : List (List ℝ) :=
  shows_list.filterMap (fun s => embed s)

/-- Lines 178-182: df[Similarity] = df[Embedding].apply(row =>
cosine_similarity(np.array(row), avg_embed)). -/
noncomputable def addSimilarityCol (df : DataFrame) (avg_embed : List ℝ) : DataFrame :=
  let score := fun r : Row => { r with similarity := r.embedding.map (fun e => cosine_similarity e avg_embed) }
  { df with rows := df.rows.map score }

/-- Line 185: df[~df[Title].isin(shows_list)]. -/
def dropFavorites (df : DataFrame) (shows_list : List String) : DataFrame :=
  { df with rows := df.rows.filter (fun r => !(shows_list.contains r.title)) }

/-- The column value sort_values compares on: the Similarity cell (always
present on the rows being sorted; getD 0 only for totality). -/
noncomputable def simKey (r : Row) : ℝ := r.similarity.getD 0

/-- The ascending comparison on rows used to model the argsort. -/
def simLE (r s : Row) : Prop := simKey r ≤ simKey s

noncomputable instance : DecidableRel simLE :=
  fun r s => inferInstanceAs (Decidable (simKey r ≤ simKey s))

/-- Line 188: df.sort_values(Similarity, ascending=False).  pandas
(pandas.core.sorting.nargsort) reverses both the column values and the
positional index, takes an ascending argsort of the reversed values
(numpy kind=quicksort, which runs a stable insertion sort on the small
arrays of this project - numpy switches to insertion sort below 17
elements), and finally reverses the resulting indexer again.  The double
reversal around a stable kernel makes the descending sort stable: rows
with equal keys keep their original frame order.  Modelled as reversal,
stable ascending insertion sort, reversal. -/
noncomputable def sort_values_desc (rows : List Row) : List Row :=
  (List.insertionSort simLE rows.reverse).reverse

/-- sort_values at the DataFrame level. -/
noncomputable def sortDF (df : DataFrame) : DataFrame :=
  { df with rows := sort_values_desc df.rows }

/-- Line 191: df.head(n). -/
def headDF (df : DataFrame) (n : Nat) : DataFrame :=
  { df with rows := df.rows.take n }

/-- Lines 164-191 after the guards have passed: the whole ranking
pipeline applied to the working copy of the catalog. -/
noncomputable def recommendation_shows (shows_list : List String) (df : DataFrame)
    (embed : EmbedTable) : DataFrame :=
  headDF
    (sortDF
      (dropFavorites
        (addSimilarityCol (filterNotna (addEmbeddingCol df embed))
          (npMean (valid_embeds shows_list embed)))
        shows_list))
    5

/-- Lines 161-191 of ai_recommendation: the ranking computation alone,
without the generative step.  Line 161 returns empty frames for an empty
shows_list; line 168 raises a KeyError when the catalog has no Title
column; lines 172-173 return empty frames when no favorite resolves in
the embedding table. -/
noncomputable def ranked_shows (shows_list : List String) (df : DataFrame)
    (embed : EmbedTable) : Except String DataFrame :=
  if shows_list.isEmpty then .ok emptyDF
  else if df.hasTitle = false then .error "KeyError: Title"
  else if (valid_embeds shows_list embed).isEmpty then .ok emptyDF
  else .ok (recommendation_shows shows_list df embed)

/-- ai_recommendation (lines 144-201).  The generative collaborator
create_ai_tv (src/talking_to_AI.py, a network call to OpenAI) is injected
as a parameter whose outcome is either a produced DataFrame or a raised
exception; lines 194-199 swallow any exception and substitute an empty
DataFrame. -/
noncomputable def ai_recommendation (shows_list : List String) (df : DataFrame)
    (embed : EmbedTable)
    (create_ai_tv : List String → DataFrame → Except String DataFrame) :
    Except String (DataFrame × DataFrame) :=
  if shows_list.isEmpty then .ok (emptyDF, emptyDF)
  else if df.hasTitle = false then .error "KeyError: Title"
  else if (valid_embeds shows_list embed).isEmpty then .ok (emptyDF, emptyDF)
  else
    match create_ai_tv shows_list (recommendation_shows shows_list df embed) with
    | .ok generate_shows => .ok (recommendation_shows shows_list df embed, generate_shows)
    | .error _ => .ok (recommendation_shows shows_list df embed, emptyDF)

/-! ### Object-level model, for the no-mutation claim

Python DataFrames are heap objects reached through references; column
assignment `df[c] = s` mutates the referenced object in place, while
`df = e` only rebinds the local name. -/

/-- The heap of DataFrame objects; a reference is an index into it. -/
abbrev Heap := List DataFrame

/-- Dereference (reads out of range never occur in the modelled runs). -/
def Heap.read (h : Heap) (r : Nat) : DataFrame := List.getD h r emptyDF

/-- In-place mutation of the object behind a reference. -/
def Heap.write (h : Heap) (r : Nat) (d : DataFrame) : Heap := List.set h r d

/-- Allocation of a fresh object, returning the new heap and the fresh
reference. -/
def Heap.alloc (h : Heap) (d : DataFrame) : Heap × Nat := (h ++ [d], List.length h)

/-- automatic_translator at the object level: lines 135-141 only read the
catalog (Series.apply and .loc perform no in-place writes), so the heap
comes back as received. -/
def automatic_translator_heap (fuzzRatio : String → String → Nat)
    (shows_list : PyShows) (h : Heap) (dfRef : Nat) :
    Heap × Except String (List String) :=
  (h, automatic_translator fuzzRatio shows_list (.pydf (h.read dfRef)))

/-- ai_recommendation at the object level.  Line 164 (df = df.copy())
allocates a fresh object and rebinds the local name to it; the in-place
column writes of lines 168 and 182 hit the object the local name points
to at that moment; lines 169, 185, 188 and 191 rebind the local name to
newly allocated derived objects. -/
noncomputable def ai_recommendation_heap (shows_list : List String)
    (embed : EmbedTable)
    (create_ai_tv : List String → DataFrame → Except String DataFrame)
    (h0 : Heap) (dfRef : Nat) :
    Heap × Except String (DataFrame × DataFrame) :=
  if shows_list.isEmpty then (h0, .ok (emptyDF, emptyDF))
  else
    let p1 := h0.alloc (h0.read dfRef)
    let h1 := p1.1
    let rLoc := p1.2
    if (h1.read rLoc).hasTitle = false then (h1, .error "KeyError: Title")
    else
      let h2 := h1.write rLoc (addEmbeddingCol (h1.read rLoc) embed)
      let p3 := h2.alloc (filterNotna (h2.read rLoc))
      let h3 := p3.1
      let r2 := p3.2
      if (valid_embeds shows_list embed).isEmpty then (h3, .ok (emptyDF, emptyDF))
      else
        let h4 := h3.write r2 (addSimilarityCol (h3.read r2) (npMean (valid_embeds shows_list embed)))
        let p5 := h4.alloc (dropFavorites (h4.read r2) shows_list)
        let h5 := p5.1
        let r3 := p5.2
        let p6 := h5.alloc (sortDF (h5.read r3))
        let h6 := p6.1
        let r4 := p6.2
        let p7 := h6.alloc (headDF (h6.read r4) 5)
        let h7 := p7.1
        let r5 := p7.2
        match create_ai_tv shows_list (h7.read r5) with
        | .ok generate_shows => (h7, .ok (h7.read r5, generate_shows))
        | .error _ => (h7, .ok (h7.read r5, emptyDF))

/-! ### Lemmas about the vector arithmetic -/

theorem dot_self_nonneg (a : List ℝ) : 0 ≤ dot a a := by
  induction a with
  | nil => simp [dot]
  | cons x as ih => simp only [dot]; nlinarith [mul_self_nonneg x]

theorem dot_comm (a b : List ℝ) : dot a b = dot b a := by
  induction a generalizing b with
  | nil => cases b <;> simp [dot]
  | cons x as ih =>
    cases b with
    | nil => simp [dot]
    | cons y bs => simp only [dot]; rw [ih bs]; ring

theorem dot_sq_le (a b : List ℝ) : dot a b ^ 2 ≤ dot a a * dot b b := by
  induction a generalizing b with
  | nil => simp [dot]
  | cons x as ih =>
    cases b with
    | nil => simp [dot]
    | cons y bs =>
      have hd := ih bs
      have hA := dot_self_nonneg as
      have hB := dot_self_nonneg bs
      simp only [dot]
      rcases eq_or_lt_of_le hB with hB0 | hBpos
      · have hd2 : dot as bs ^ 2 = 0 :=
          le_antisymm (by nlinarith) (sq_nonneg _)
        have hd0 : dot as bs = 0 := by
          exact pow_eq_zero_iff (two_ne_zero) |>.mp hd2
        rw [hd0, ← hB0]
        nlinarith [mul_nonneg hA (mul_self_nonneg y)]
      · nlinarith [sq_nonneg (x * dot bs bs - y * dot as bs),
          mul_nonneg hB (sub_nonneg.mpr hd),
          mul_nonneg (sq_nonneg y) (sub_nonneg.mpr hd)]

theorem npNorm_nonneg (a : List ℝ) : 0 ≤ npNorm a := Real.sqrt_nonneg _

theorem abs_dot_le (a b : List ℝ) : |dot a b| ≤ npNorm a * npNorm b := by
  have h1 : |dot a b| = Real.sqrt (dot a b ^ 2) := (Real.sqrt_sq_eq_abs _).symm
  rw [h1, npNorm, npNorm, ← Real.sqrt_mul (dot_self_nonneg a)]
  exact Real.sqrt_le_sqrt (dot_sq_le a b)

theorem cosine_similarity_mem_Icc (a b : List ℝ) :
    -1 ≤ cosine_similarity a b ∧ cosine_similarity a b ≤ 1 := by
  unfold cosine_similarity
  split
  · norm_num
  · rename_i h
    have hd : 0 ≤ npNorm a * npNorm b :=
      mul_nonneg (npNorm_nonneg a) (npNorm_nonneg b)
    have hpos : 0 < npNorm a * npNorm b := lt_of_le_of_ne hd (Ne.symm h)
    have habs := abs_le.mp (abs_dot_le a b)
    constructor
    · rw [le_div_iff₀ hpos]; linarith [habs.1]
    · rw [div_le_one hpos]; linarith [habs.2]

theorem cosine_similarity_zero_denom {a b : List ℝ}
    (h : npNorm a = 0 ∨ npNorm b = 0) : cosine_similarity a b = 0 := by
  unfold cosine_similarity
  rcases h with h | h <;> rw [h] <;> simp

theorem dot_replicate_zero (n : Nat) (l : List ℝ) :
    dot l (List.replicate n 0) = 0 := by
  induction n generalizing l with
  | zero => cases l <;> simp [dot]
  | succ m ih =>
    cases l with
    | nil => simp [dot]
    | cons x xs => simp [List.replicate, dot, ih]

theorem npNorm_replicate_zero (n : Nat) :
    npNorm (List.replicate n 0) = 0 := by
  rw [npNorm, dot_replicate_zero, Real.sqrt_zero]

/-! ### Lemmas about listMax and idxmaxL -/

theorem getD_le_listMax (l : List Nat) (j : Nat) (hj : j < l.length) :
    l.getD j 0 ≤ listMax l := by
  induction l generalizing j with
  | nil => simp at hj
  | cons a t ih =>
    cases j with
    | zero => simp [listMax]
    | succ m =>
      simp only [List.getD_cons_succ, listMax]
      exact le_trans (ih m (by simpa using hj)) (le_max_right _ _)

theorem idxmaxL_lt_length (l : List Nat) (h : l ≠ []) :
    idxmaxL l < l.length := by
  induction l with
  | nil => exact absurd rfl h
  | cons a t ih =>
    simp only [idxmaxL]
    split
    · simp
    · rename_i hgt
      have ht : t ≠ [] := by
        intro he; rw [he] at hgt; simp [listMax] at hgt
      simpa using Nat.succ_lt_succ (ih ht)

theorem getD_idxmaxL (l : List Nat) (h : l ≠ []) :
    l.getD (idxmaxL l) 0 = listMax l := by
  induction l with
  | nil => exact absurd rfl h
  | cons a t ih =>
    simp only [idxmaxL, listMax]
    split
    · rename_i hle
      simp [Nat.max_eq_left hle]
    · rename_i hgt
      have ht : t ≠ [] := by
        intro he; rw [he] at hgt; simp [listMax] at hgt
      have hlt : a < listMax t := Nat.lt_of_not_le hgt
      simp only [List.getD_cons_succ]
      rw [ih ht, Nat.max_eq_right hlt.le]

theorem getD_lt_of_lt_idxmaxL (l : List Nat) (j : Nat) (hj : j < idxmaxL l) :
    l.getD j 0 < listMax l := by
  induction l generalizing j with
  | nil => simp [idxmaxL] at hj
  | cons a t ih =>
    simp only [idxmaxL] at hj
    split at hj
    · exact absurd hj (Nat.not_lt_zero j)
    · rename_i hgt
      have hlt : a < listMax t := Nat.lt_of_not_le hgt
      cases j with
      | zero =>
        simpa [listMax, Nat.max_eq_right hlt.le] using hlt
      | succ m =>
        have hm : m < idxmaxL t := Nat.lt_of_succ_lt_succ hj
        simp only [List.getD_cons_succ, listMax]
        rw [Nat.max_eq_right hlt.le]
        exact ih m hm

/-! ### Lemmas about automatic_translator -/

theorem mapM_ok {α β : Type} (f : α → Except String β) (g : α → β) (l : List α)
    (h : ∀ x ∈ l, f x = .ok (g x)) : l.mapM f = .ok (l.map g) := by
  induction l with
  | nil => rfl
  | cons a t ih =>
    rw [List.mapM_cons, h a (List.mem_cons_self a t),
      ih (fun x hx => h x (List.mem_cons_of_mem a hx))]
    rfl

theorem translateOne_ok (fuzzRatio : String → String → Nat) (rows : List Row)
    (hrows : rows ≠ []) (s : String) :
    translateOne fuzzRatio rows s =
      .ok ((rows.getD (idxmaxL (rows.map (fun r => fuzzRatio s r.title))) dummyRow).title) := by
  unfold translateOne
  rw [if_neg (by simpa using hrows)]

theorem ratios_getD (fuzzRatio : String → String → Nat) (rows : List Row)
    (s : String) (j : Nat) (hj : j < rows.length) :
    (rows.map (fun r => fuzzRatio s r.title)).getD j 0 =
      fuzzRatio s ((rows.getD j dummyRow).title) := by
  rw [List.getD_eq_getElem _ _ (by simpa using hj), List.getD_eq_getElem _ _ hj,
    List.getElem_map]

/-- C1: for a non-empty list of raw titles and a catalog with a Title
column and at least one row, automatic_translator returns one title per
input, in input order, each being the catalog title of the first row that
maximizes the fuzzy ratio against that input. -/
theorem translator_argmax_first (fuzzRatio : String → String → Nat)
    (shows : List String) (d : DataFrame)
    (hne : shows ≠ []) (ht : d.hasTitle = true) (hrows : d.rows ≠ []) :
    ∃ out, automatic_translator fuzzRatio (.pylist shows) (.pydf d) = .ok out ∧
      out.length = shows.length ∧
      ∀ i, i < shows.length →
        ∃ k, k < d.rows.length ∧
          out.getD i "" = (d.rows.getD k dummyRow).title ∧
          (∀ j, j < d.rows.length →
            fuzzRatio (shows.getD i "") ((d.rows.getD j dummyRow).title) ≤
              fuzzRatio (shows.getD i "") ((d.rows.getD k dummyRow).title)) ∧
          (∀ j, j < k →
            fuzzRatio (shows.getD i "") ((d.rows.getD j dummyRow).title) <
              fuzzRatio (shows.getD i "") ((d.rows.getD k dummyRow).title)) := by
  have hfalsy : (PyShows.pylist shows).falsy = false := by
    simp [PyShows.falsy, hne]
  set g : String → String := fun s =>
    (d.rows.getD (idxmaxL (d.rows.map (fun r => fuzzRatio s r.title))) dummyRow).title with hg
  refine ⟨shows.map g, ?_, by simp, ?_⟩
  · unfold automatic_translator
    rw [hfalsy]
    simp only [Bool.false_eq_true, if_false, ht, if_pos]
    exact mapM_ok _ g shows (fun x _ => translateOne_ok fuzzRatio d.rows hrows x)
  · intro i hi
    have hrl : (d.rows.map (fun r => fuzzRatio (shows.getD i "") r.title)).length
        = d.rows.length := by simp
    have hrne : d.rows.map (fun r => fuzzRatio (shows.getD i "") r.title) ≠ [] := by
      simp only [ne_eq, List.map_eq_nil_iff]
      exact hrows
    have hklt : idxmaxL (d.rows.map (fun r => fuzzRatio (shows.getD i "") r.title))
        < d.rows.length := by
      rw [← hrl]; exact idxmaxL_lt_length _ hrne
    refine ⟨idxmaxL (d.rows.map (fun r => fuzzRatio (shows.getD i "") r.title)),
      hklt, ?_, ?_, ?_⟩
    · rw [List.getD_eq_getElem _ _ (by simpa using hi), List.getElem_map, hg]
      rw [List.getD_eq_getElem _ _ hi]
    · intro j hj
      have h1 := getD_le_listMax (d.rows.map (fun r => fuzzRatio (shows.getD i "") r.title))
        j (by rwa [hrl])
      have h2 := getD_idxmaxL (d.rows.map (fun r => fuzzRatio (shows.getD i "") r.title)) hrne
      rw [ratios_getD fuzzRatio d.rows (shows.getD i "") j hj] at h1
      rw [ratios_getD fuzzRatio d.rows (shows.getD i "") _ hklt] at h2
      omega
    · intro j hj
      have h1 := getD_lt_of_lt_idxmaxL
        (d.rows.map (fun r => fuzzRatio (shows.getD i "") r.title)) j hj
      have h2 := getD_idxmaxL (d.rows.map (fun r => fuzzRatio (shows.getD i "") r.title)) hrne
      have hjlen : j < d.rows.length := lt_trans hj hklt
      rw [ratios_getD fuzzRatio d.rows (shows.getD i "") j hjlen] at h1
      rw [ratios_getD fuzzRatio d.rows (shows.getD i "") _ hklt] at h2
      omega

/-! ### Structure of the rows of recommendation_shows -/

theorem mem_dropped_of_mem_recommendation_shows {shows : List String}
    {df : DataFrame} {embed : EmbedTable} {r : Row}
    (h : r ∈ (recommendation_shows shows df embed).rows) :
    r ∈ (dropFavorites
      (addSimilarityCol (filterNotna (addEmbeddingCol df embed))
        (npMean (valid_embeds shows embed))) shows).rows := by
  unfold recommendation_shows headDF sortDF sort_values_desc at h
  simp only at h
  have h1 := (List.take_sublist 5 _).mem h
  rw [List.mem_reverse] at h1
  have h2 := ((List.perm_insertionSort simLE _).mem_iff).mp h1
  exact List.mem_reverse.mp h2

theorem recommendation_rows_structure {shows : List String}
    {df : DataFrame} {embed : EmbedTable} {r : Row}
    (h : r ∈ (recommendation_shows shows df embed).rows) :
    (shows.contains r.title = false) ∧
      ∃ e, r.embedding = some e ∧
        r.similarity = some (cosine_similarity e (npMean (valid_embeds shows embed))) := by
  have h1 := mem_dropped_of_mem_recommendation_shows h
  unfold dropFavorites at h1
  simp only at h1
  rcases List.mem_filter.mp h1 with ⟨h2, hkeep⟩
  have hcontains : shows.contains r.title = false := by
    simpa using hkeep
  refine ⟨hcontains, ?_⟩
  unfold addSimilarityCol at h2
  simp only at h2
  rcases List.mem_map.mp h2 with ⟨r0, hr0, hr0eq⟩
  unfold filterNotna at hr0
  simp only at hr0
  rcases List.mem_filter.mp hr0 with ⟨_, hsome⟩
  rcases Option.isSome_iff_exists.mp hsome with ⟨e, he⟩
  refine ⟨e, ?_, ?_⟩
  · rw [← hr0eq]
    simpa using he
  · rw [← hr0eq]
    simp [he]

/-! ### Sorting: order of the ranked rows -/

instance : IsTotal Row simLE := ⟨fun a b => le_total (simKey a) (simKey b)⟩

instance : IsTrans Row simLE := ⟨fun _ _ _ hab hbc => le_trans hab hbc⟩

theorem ai_recommendation_ok_cases {shows_list : List String} {df : DataFrame}
    {embed : EmbedTable} {gen : List String → DataFrame → Except String DataFrame}
    {recs g : DataFrame}
    (hok : ai_recommendation shows_list df embed gen = .ok (recs, g)) :
    recs = emptyDF ∨ recs = recommendation_shows shows_list df embed := by
  unfold ai_recommendation at hok
  split at hok
  · simp only [Except.ok.injEq, Prod.mk.injEq] at hok
    exact Or.inl hok.1.symm
  · split at hok
    · exact absurd hok (by simp)
    · split at hok
      · simp only [Except.ok.injEq, Prod.mk.injEq] at hok
        exact Or.inl hok.1.symm
      · split at hok
        · simp only [Except.ok.injEq, Prod.mk.injEq] at hok
          exact Or.inr hok.1.symm
        · simp only [Except.ok.injEq, Prod.mk.injEq] at hok
          exact Or.inr hok.1.symm

/-! ### Concrete instances: the three-show catalog of the spec scenario
and a four-show catalog with a tied pair of scores -/

def rowA : Row := { idx := 0, title := "A", cells := [] }

def rowB : Row := { idx := 1, title := "B", cells := [] }

def rowC : Row := { idx := 2, title := "C", cells := [] }

def catalogABC : DataFrame := { hasTitle := true, rows := [rowA, rowB, rowC] }

noncomputable def tableABC : EmbedTable := fun t =>
  if t = "A" then some [0.1, 0.2]
  else if t = "B" then some [0.2, 0.3]
  else if t = "C" then some [0.3, 0.4]
  else none

/-- The single candidate row of the spec scenario, carrying the cosine
similarity of its embedding against the centroid of the favorites. -/
noncomputable def rowCout : Row :=
  { idx := 2, title := "C", cells := [], embedding := some [0.3, 0.4],
    similarity := some (cosine_similarity [0.3, 0.4] (npMean (valid_embeds ["A", "B"] tableABC))) }

/-- A generative collaborator that always raises (e.g. no API key). -/
def genFail : List String → DataFrame → Except String DataFrame :=
  fun _ _ => .error "missing OPENAI_API_KEY"

/-- C1 witness: a concrete ratio, input list and catalog instantiating
the reconciler argmax theorem. -/
def ratioLen : String → String → Nat := fun a b => 100 - Nat.dist a.length b.length

theorem translator_argmax_first_witness :
    ∃ out, automatic_translator ratioLen (.pylist ["BB"]) (.pydf catalogABC) = .ok out ∧
      out.length = (["BB"] : List String).length ∧
      ∀ i, i < (["BB"] : List String).length →
        ∃ k, k < catalogABC.rows.length ∧
          out.getD i "" = (catalogABC.rows.getD k dummyRow).title ∧
          (∀ j, j < catalogABC.rows.length →
            ratioLen ((["BB"] : List String).getD i "") ((catalogABC.rows.getD j dummyRow).title) ≤
              ratioLen ((["BB"] : List String).getD i "") ((catalogABC.rows.getD k dummyRow).title)) ∧
          (∀ j, j < k →
            ratioLen ((["BB"] : List String).getD i "") ((catalogABC.rows.getD j dummyRow).title) <
              ratioLen ((["BB"] : List String).getD i "") ((catalogABC.rows.getD k dummyRow).title)) :=
  translator_argmax_first ratioLen ["BB"] catalogABC
    (List.cons_ne_nil _ _) rfl (List.cons_ne_nil _ _)

/-- C2: every candidate in an ok ranking is scored by the cosine
similarity of its embedding against the centroid - the componentwise mean
of the embeddings of the favorites that resolve in the embedding table;
and on the 3-entry catalog with embeddings A:[0.1,0.2], B:[0.2,0.3],
C:[0.3,0.4], ranking with favorites A,B yields exactly the single pair
(C, cosine similarity of C against the centroid of A and B). -/
theorem centroid_scoring_and_scenario :
    (∀ (shows_list : List String) (df : DataFrame) (embed : EmbedTable)
        (gen : List String → DataFrame → Except String DataFrame)
        (recs g : DataFrame) (r : Row),
        ai_recommendation shows_list df embed gen = .ok (recs, g) →
        r ∈ recs.rows →
        ∃ e, r.embedding = some e ∧
          r.similarity = some (cosine_similarity e (npMean (valid_embeds shows_list embed)))) ∧
      ranked_shows ["A", "B"] catalogABC tableABC =
        .ok { hasTitle := true, rows := [rowCout] } := by
  constructor
  · intro shows_list df embed gen recs g r hok hr
    rcases ai_recommendation_ok_cases hok with he | he
    · rw [he] at hr
      exact absurd hr (by simp [emptyDF])
    · rw [he] at hr
      exact (recommendation_rows_structure hr).2
  · rfl

theorem centroid_scoring_and_scenario_witness :
    ∃ e, rowCout.embedding = some e ∧
      rowCout.similarity
        = some (cosine_similarity e (npMean (valid_embeds ["A", "B"] tableABC))) :=
  centroid_scoring_and_scenario.1 ["A", "B"] catalogABC tableABC genFail
    { hasTitle := true, rows := [rowCout] } emptyDF rowCout rfl (by simp)

/-- C4: no row of an ok ranking carries a title from the favorites
list (the isin filter of line 185). -/
theorem favorites_never_recommended (shows_list : List String) (df : DataFrame)
    (embed : EmbedTable) (gen : List String → DataFrame → Except String DataFrame)
    (recs g : DataFrame) (r : Row)
    (hok : ai_recommendation shows_list df embed gen = .ok (recs, g))
    (hr : r ∈ recs.rows) : r.title ∉ shows_list := by
  rcases ai_recommendation_ok_cases hok with he | he
  · rw [he] at hr
    exact absurd hr (by simp [emptyDF])
  · rw [he] at hr
    have h := (recommendation_rows_structure hr).1
    simpa using h

theorem favorites_never_recommended_witness : rowCout.title ∉ (["A", "B"] : List String) :=
  favorites_never_recommended ["A", "B"] catalogABC tableABC genFail
    { hasTitle := true, rows := [rowCout] } emptyDF rowCout rfl (by simp)

/-- A trivial fuzzy ratio for concrete runs. -/
def ratio0 : String → String → Nat := fun _ _ => 0

/-- A DataFrame with a Title column but no rows. -/
def dfTitledEmpty : DataFrame := { hasTitle := true, rows := [] }

/-- A non-empty DataFrame without a Title column (like pd.DataFrame()
would be after rows were added some other way). -/
def dfNoTitle : DataFrame := { hasTitle := false, rows := [{ idx := 0, title := "X", cells := [] }] }

/-- An embedding table with no entries. -/
def tableNone : EmbedTable := fun _ => none

/-- C5 counterexample: an empty-but-valid catalog makes
automatic_translator raise (idxmax of an empty series) instead of
returning the claimed empty sequence; and a Title-less catalog with a
non-empty, unresolvable favorites list makes ai_recommendation raise a
KeyError instead of the claimed empty result. -/
theorem empty_catalog_raises_counterexample :
    automatic_translator ratio0 (.pylist ["x"]) (.pydf dfTitledEmpty)
        = .error "ValueError: attempt to get argmax of an empty sequence" ∧
      ai_recommendation ["x"] dfNoTitle tableNone genFail
        = .error "KeyError: Title" :=
  ⟨rfl, rfl⟩

/-- C5 amended: automatic_translator returns an empty list (no error)
when the raw-titles input is falsy or the catalog argument is absent or
not a DataFrame; an empty or Title-less DataFrame instead raises.
ai_recommendation returns an empty result (no error) when the favorites
list is empty, and also when the catalog has a Title column and no
favorite resolves in the embedding table; a Title-less catalog with
non-empty favorites instead raises. -/
theorem degrade_to_empty_guards :
    (∀ (fr : String → String → Nat) (shows_list : PyShows) (df : PyCatalog),
        shows_list.falsy = true → automatic_translator fr shows_list df = .ok []) ∧
      (∀ (fr : String → String → Nat) (shows_list : PyShows) (df : PyCatalog),
        (∀ d, df ≠ .pydf d) → automatic_translator fr shows_list df = .ok []) ∧
      (∀ (df : DataFrame) (embed : EmbedTable)
        (gen : List String → DataFrame → Except String DataFrame),
        ai_recommendation [] df embed gen = .ok (emptyDF, emptyDF)) ∧
      ∀ (shows_list : List String) (df : DataFrame) (embed : EmbedTable)
        (gen : List String → DataFrame → Except String DataFrame),
        df.hasTitle = true → valid_embeds shows_list embed = [] →
        ai_recommendation shows_list df embed gen = .ok (emptyDF, emptyDF) := by
  refine ⟨?_, ?_, ?_, ?_⟩
  · intro fr shows_list df h
    unfold automatic_translator
    rw [h]
    rfl
  · intro fr shows_list df h
    unfold automatic_translator
    cases df with
    | pydf d => exact absurd rfl (h d)
    | pynone => split <;> rfl
    | pystr s => split <;> rfl
    | pylist l => split <;> rfl
  · intro df embed gen
    rfl
  · intro shows_list df embed gen ht hve
    unfold ai_recommendation
    rcases hse : shows_list.isEmpty with hf | htr
    · rw [if_neg (by simp [hse]), if_neg (by simp [ht]),
        if_pos (by simp [hve, List.isEmpty_nil])]
    · rw [if_pos (by simp [hse])]

theorem degrade_to_empty_guards_witness :
    automatic_translator ratio0 (.pylist []) (.pydf dfTitledEmpty) = .ok [] ∧
      automatic_translator ratio0 (.pylist ["x"]) .pynone = .ok [] ∧
      ai_recommendation [] dfTitledEmpty tableNone genFail = .ok (emptyDF, emptyDF) ∧
      ai_recommendation ["x"] dfTitledEmpty tableNone genFail = .ok (emptyDF, emptyDF) :=
  ⟨degrade_to_empty_guards.1 ratio0 (.pylist []) (.pydf dfTitledEmpty) rfl,
    degrade_to_empty_guards.2.1 ratio0 (.pylist ["x"]) .pynone
      (fun _ h => PyCatalog.noConfusion h),
    degrade_to_empty_guards.2.2.1 dfTitledEmpty tableNone genFail,
    degrade_to_empty_guards.2.2.2 ["x"] dfTitledEmpty tableNone genFail rfl rfl⟩

/-- C6: cosine_similarity is total (it is a function into the reals) and
returns exactly 0 whenever either argument has zero norm; in particular
against a zero vector of any length. -/
theorem cosine_zero_norm_total :
    (∀ a b : List ℝ, npNorm a = 0 ∨ npNorm b = 0 → cosine_similarity a b = 0) ∧
      ∀ (v : List ℝ) (n : Nat), cosine_similarity v (List.replicate n 0) = 0 := by
  constructor
  · intro a b h
    apply cosine_similarity_zero_denom
    exact h
  · intro v n
    exact cosine_similarity_zero_denom (Or.inr (npNorm_replicate_zero n))

theorem cosine_zero_norm_total_witness :
    cosine_similarity [(1 : ℝ), 2] (List.replicate 2 0) = 0 ∧
      cosine_similarity [(3 : ℝ)] [0, 0] = 0 :=
  ⟨cosine_zero_norm_total.2 [1, 2] 2,
    cosine_zero_norm_total.1 [3] [0, 0] (Or.inr (npNorm_replicate_zero 2))⟩

/-- C7: the ranking part of ai_recommendation does not depend on the
generative collaborator at all, and when the collaborator raises, the
function still returns the same ranking, paired with an empty DataFrame
(the try/except of lines 193-199). -/
theorem generation_failure_isolated (shows_list : List String) (df : DataFrame)
    (embed : EmbedTable) :
    (∀ gen : List String → DataFrame → Except String DataFrame,
        (ai_recommendation shows_list df embed gen).map Prod.fst
          = ranked_shows shows_list df embed) ∧
      ∀ (gen : List String → DataFrame → Except String DataFrame) (e : String),
        gen shows_list (recommendation_shows shows_list df embed) = .error e →
        ai_recommendation shows_list df embed gen
          = (ranked_shows shows_list df embed).map (fun recs => (recs, emptyDF)) := by
  constructor
  · intro gen
    unfold ai_recommendation ranked_shows
    by_cases h1 : shows_list.isEmpty
    · simp [h1, Except.map]
    · by_cases h2 : df.hasTitle = false
      · simp [h1, h2, Except.map]
      · by_cases h3 : (valid_embeds shows_list embed).isEmpty
        · simp [h1, h2, h3, Except.map]
        · cases hgen : gen shows_list (recommendation_shows shows_list df embed) <;>
            simp [h1, h2, h3, hgen, Except.map]
  · intro gen e hgen
    unfold ai_recommendation ranked_shows
    by_cases h1 : shows_list.isEmpty
    · simp [h1, Except.map]
    · by_cases h2 : df.hasTitle = false
      · simp [h1, h2, Except.map]
      · by_cases h3 : (valid_embeds shows_list embed).isEmpty
        · simp [h1, h2, h3, Except.map]
        · simp [h1, h2, h3, hgen, Except.map]

theorem generation_failure_isolated_witness :
    (ai_recommendation ["A", "B"] catalogABC tableABC genFail).map Prod.fst
        = ranked_shows ["A", "B"] catalogABC tableABC ∧
      ai_recommendation ["A", "B"] catalogABC tableABC genFail
        = (ranked_shows ["A", "B"] catalogABC tableABC).map (fun recs => (recs, emptyDF)) :=
  ⟨(generation_failure_isolated ["A", "B"] catalogABC tableABC).1 genFail,
    (generation_failure_isolated ["A", "B"] catalogABC tableABC).2 genFail
      "missing OPENAI_API_KEY" rfl⟩

/-- C8: every similarity score carried by a row of an ok ranking lies in
the closed interval from -1 to 1. -/
theorem scores_within_unit_interval (shows_list : List String) (df : DataFrame)
    (embed : EmbedTable) (gen : List String → DataFrame → Except String DataFrame)
    (recs g : DataFrame) (r : Row) (s : ℝ)
    (hok : ai_recommendation shows_list df embed gen = .ok (recs, g))
    (hr : r ∈ recs.rows) (hs : r.similarity = some s) :
    -1 ≤ s ∧ s ≤ 1 := by
  rcases ai_recommendation_ok_cases hok with he | he
  · rw [he] at hr
    exact absurd hr (by simp [emptyDF])
  · rw [he] at hr
    rcases (recommendation_rows_structure hr).2 with ⟨e, _, hsim⟩
    rw [hs] at hsim
    have heq : s = cosine_similarity e (npMean (valid_embeds shows_list embed)) := by
      injection hsim
    rw [heq]
    exact cosine_similarity_mem_Icc _ _

theorem scores_within_unit_interval_witness :
    -1 ≤ cosine_similarity [0.3, 0.4] (npMean (valid_embeds ["A", "B"] tableABC)) ∧
      cosine_similarity [0.3, 0.4] (npMean (valid_embeds ["A", "B"] tableABC)) ≤ 1 :=
  scores_within_unit_interval ["A", "B"] catalogABC tableABC genFail
    { hasTitle := true, rows := [rowCout] } emptyDF rowCout
    (cosine_similarity [0.3, 0.4] (npMean (valid_embeds ["A", "B"] tableABC)))
    rfl (by simp) rfl

/-! ### C9: the heap behind the calls -/

theorem read_append_lt (h tail : Heap) (r : Nat) (hr : r < h.length) :
    Heap.read (h ++ tail) r = Heap.read h r := by
  unfold Heap.read
  exact List.getD_append _ _ _ _ hr

theorem read_set_ne (h : Heap) (i : Nat) (d : DataFrame) (r : Nat) (hne : i ≠ r) :
    Heap.read (List.set h i d) r = Heap.read h r := by
  unfold Heap.read
  rw [List.getD_eq_getElem?_getD, List.getD_eq_getElem?_getD, List.getElem?_set_ne hne]

/-- C9: neither function mutates the caller's catalog object: after
either call, the DataFrame behind the caller's reference is exactly the
one that was there before (ai_recommendation works on the copy allocated
at line 164; automatic_translator performs no writes at all). -/
theorem catalog_not_mutated (fuzzRatio : String → String → Nat)
    (shows1 : PyShows) (shows_list : List String) (embed : EmbedTable)
    (gen : List String → DataFrame → Except String DataFrame)
    (h0 : Heap) (dfRef : Nat) (hlt : dfRef < h0.length) :
    (automatic_translator_heap fuzzRatio shows1 h0 dfRef).1.read dfRef = h0.read dfRef ∧
      (ai_recommendation_heap shows_list embed gen h0 dfRef).1.read dfRef
        = h0.read dfRef := by
  refine ⟨rfl, ?_⟩
  unfold ai_recommendation_heap
  simp only [Heap.alloc, Heap.write]
  split
  · rfl
  · have hr1 : Heap.read (h0 ++ [h0.read dfRef]) dfRef = h0.read dfRef :=
      read_append_lt h0 _ dfRef hlt
    have hlen1 : (h0 ++ [h0.read dfRef]).length = h0.length + 1 := by
      simp
    split
    · exact hr1
    · have hne1 : h0.length ≠ dfRef := (Nat.ne_of_lt hlt).symm
      have hr2 : ∀ d, Heap.read ((h0 ++ [h0.read dfRef]).set h0.length d) dfRef
          = h0.read dfRef := by
        intro d
        rw [read_set_ne _ _ _ _ hne1]
        exact hr1
      have hlen2 : ∀ d, ((h0 ++ [h0.read dfRef]).set h0.length d).length
          = h0.length + 1 := by
        intro d
        simp
      have hr3 : ∀ d d2, Heap.read (((h0 ++ [h0.read dfRef]).set h0.length d) ++ [d2]) dfRef
          = h0.read dfRef := by
        intro d d2
        rw [read_append_lt _ _ _ (by rw [hlen2]; omega)]
        exact hr2 d
      split
      · exact hr3 _ _
      · have hr4 : ∀ d d2 d3, Heap.read
            ((((h0 ++ [h0.read dfRef]).set h0.length d) ++ [d2]).set
              (((h0 ++ [h0.read dfRef]).set h0.length d).length) d3) dfRef
            = h0.read dfRef := by
          intro d d2 d3
          rw [read_set_ne _ _ _ _ (by rw [hlen2]; omega)]
          exact hr3 d d2
        have hlen4 : ∀ d d2 d3, ((((h0 ++ [h0.read dfRef]).set h0.length d) ++ [d2]).set
              (((h0 ++ [h0.read dfRef]).set h0.length d).length) d3).length
            = h0.length + 2 := by
          intro d d2 d3
          simp [hlen2]
        have hr5 : ∀ d d2 d3 t, Heap.read
            (((((h0 ++ [h0.read dfRef]).set h0.length d) ++ [d2]).set
              (((h0 ++ [h0.read dfRef]).set h0.length d).length) d3) ++ t) dfRef
            = h0.read dfRef := by
          intro d d2 d3 t
          rw [read_append_lt _ _ _ (by rw [hlen4]; omega)]
          exact hr4 d d2 d3
        have hr6 : ∀ d d2 d3 t t2, Heap.read
            ((((((h0 ++ [h0.read dfRef]).set h0.length d) ++ [d2]).set
              (((h0 ++ [h0.read dfRef]).set h0.length d).length) d3) ++ t) ++ t2) dfRef
            = h0.read dfRef := by
          intro d d2 d3 t t2
          rw [read_append_lt _ _ _ (by simp [hlen4]; omega)]
          exact hr5 d d2 d3 t
        have hr7 : ∀ d d2 d3 t t2 t3, Heap.read
            (((((((h0 ++ [h0.read dfRef]).set h0.length d) ++ [d2]).set
              (((h0 ++ [h0.read dfRef]).set h0.length d).length) d3) ++ t) ++ t2) ++ t3) dfRef
            = h0.read dfRef := by
          intro d d2 d3 t t2 t3
          rw [read_append_lt _ _ _ (by simp [hlen4]; omega)]
          exact hr6 d d2 d3 t t2
        split
        · exact hr7 _ _ _ _ _ _
        · exact hr7 _ _ _ _ _ _

theorem catalog_not_mutated_witness :
    (automatic_translator_heap ratio0 (.pylist ["x"]) [catalogABC] 0).1.read 0
        = Heap.read [catalogABC] 0 ∧
      (ai_recommendation_heap ["x"] tableNone genFail [catalogABC] 0).1.read 0
        = Heap.read [catalogABC] 0 :=
  catalog_not_mutated ratio0 (.pylist ["x"]) ["x"] tableNone genFail
    [catalogABC] 0 (by simp)

/-- C10: cosine_similarity is symmetric in its two arguments: the dot
product is commutative and so is the product of norms, including the
zero-denominator guard. -/
theorem cosine_similarity_symmetric (a b : List ℝ) :
    cosine_similarity a b = cosine_similarity b a := by
  unfold cosine_similarity
  rw [dot_comm a b, mul_comm (npNorm a)]

end ShowSuggester
